import Mathlib

/-!
Verification development for the alarm-scheduling and dashboard-reconciliation
engine of `src/bot.py` (a Discord worker-alarm bot).

Shallow embedding conventions:
* instants (`datetime` values) are integers counting seconds from an arbitrary
  epoch; `timedelta(minutes = m)` is `m * 60`, `timedelta(hours = h)` is
  `h * 3600`, `timedelta(days = 1)` is `86400`;
* `dt.date()` composed with `datetime.combine` becomes floor-division and
  remainder by 86400 (Python's `//` floors, which is `Int.ediv` for the
  positive divisor 86400, i.e. `/` on `Int` in Lean);
* a user-entered time-of-day `HH:MM` is its second-of-day, an integer in
  `[0, 86400)` divisible by 60;
* the nested runtime dictionaries (`alarms`, `data[g]["alarms"]`, ...) are
  modelled either as association lists (when the claim is about their whole
  contents) or as functions `String → Option _` on the innermost
  `time_str`-keyed level (when the claim is about a single key);
* `await` of a gateway call (`send`, `edit`, `delete`) is modelled by an
  explicit outcome value; an uncaught exception is an `Except.error`.
-/

namespace WorkerBot

/-! ## Time arithmetic (`bot.py` lines 107-116) -/

/-- `utc_to_local` from `bot.py`: `dt_utc + timedelta(hours=offset_hours)`. -/
def utc_to_local (dt_utc : Int) (offset_hours : Int) : Int :=
  dt_utc + offset_hours * 3600

/-- `local_naive_to_utc` from `bot.py`:
`(dt_local_naive - timedelta(hours=offset_hours)).replace(tzinfo=timezone.utc)`.
Dropping or attaching the timezone tag does not change the instant's
arithmetic value, so in the integer model it is a plain subtraction. -/
def local_naive_to_utc (dt_local_naive : Int) (offset_hours : Int) : Int :=
  dt_local_naive - offset_hours * 3600

/-! ## Deadline resolution (`worker "+"` branch, `bot.py` lines 512-525) -/

/-- `datetime.combine(nu_local.date(), end_time)`: the instant on
`nu_local`'s local calendar day whose second-of-day is `end_time`. -/
def combine_local_date (nu_local : Int) (end_time : Int) : Int :=
  (nu_local / 86400) * 86400 + end_time

/-- The deadline resolution of the `!worker +` command (`bot.py` 512-525):

    nu_local = utc_to_local(nu, offset)
    end_local_naive = datetime.combine(nu_local.date(), end_time)
    if end_local_naive < nu_local.replace(tzinfo=None):
        end_local_naive += timedelta(days=1)
    end_utc = local_naive_to_utc(end_local_naive, offset)

`nu` is `now_utc()`, `offset` the tenant's GMT offset, `end_time` the
entered time-of-day in seconds. -/
def resolve_end_utc (nu : Int) (offset : Int) (end_time : Int) : Int :=
  let nu_local := utc_to_local nu offset
  let end_local_naive := combine_local_date nu_local end_time
  let end_local := if end_local_naive < nu_local then end_local_naive + 86400
    else end_local_naive
  local_naive_to_utc end_local offset

/-! ## Theorems for claims C2 and C10 -/

/-- C10. For every UTC instant `t` and integer offset `h`, converting to
tenant-local time with `utc_to_local` and back with `local_naive_to_utc`
yields `t` again, and the two conversions are mutually inverse (the round
trip holds in both directions). -/
theorem C10_local_utc_round_trip (t h : Int) :
    local_naive_to_utc (utc_to_local t h) h = t ∧
    utc_to_local (local_naive_to_utc t h) h = t := by
  constructor <;> simp [utc_to_local, local_naive_to_utc]

/-- C2, counterexample. The claim states `resolve(entered, now, offset) > now`
for every input, the equality case rolling one day forward. In the code the
roll-forward test is the strict `end_local_naive < nu_local`, so when the
combined local instant equals local "now" exactly (local midnight, entered
time-of-day `00:00`) nothing is rolled and the resolved deadline equals
`now`: it is not strictly in the future. -/
theorem C2_counterexample :
    resolve_end_utc 0 0 0 = 0 ∧ ¬ (0 : Int) < resolve_end_utc 0 0 0 := by
  constructor <;> decide

/-- C2, amended. The resolved deadline is never in the past: it is `≥ now`
for every entered second-of-day `0 ≤ end_time`, it is strictly greater than
`now` whenever the combined local instant differs from local now, and it
equals `now` exactly when the combined local instant equals local now (in
which case the code does not roll forward). -/
theorem C2_resolve_not_past (nu offset end_time : Int) (h : 0 ≤ end_time) :
    nu ≤ resolve_end_utc nu offset end_time ∧
    (resolve_end_utc nu offset end_time = nu ↔
      combine_local_date (utc_to_local nu offset) end_time =
        utc_to_local nu offset) := by
  simp only [resolve_end_utc, combine_local_date, utc_to_local, local_naive_to_utc]
  split_ifs <;> omega

/-- Witness for `C2_resolve_not_past` at `nu = 50`, `offset = 2`,
`end_time = 3600`. -/
theorem C2_resolve_not_past_witness :
    (0 : Int) ≤ 3600 ∧
    ((50 : Int) ≤ resolve_end_utc 50 2 3600 ∧
      (resolve_end_utc 50 2 3600 = 50 ↔
        combine_local_date (utc_to_local 50 2) 3600 = utc_to_local 50 2)) :=
  ⟨by decide, C2_resolve_not_past 50 2 3600 (by decide)⟩

/-! ## Alarm Timer (`run_alarm`, `bot.py` lines 268-300) -/

/-- The configured lead times, in minutes before the deadline
(`warnings = [10, 5, 1]` in `run_alarm`). -/
def warnings : List Nat := [10, 5, 1]

/-- `"minute" if minutes == 1 else "minutes"`. -/
def warn_unit (minutes : Nat) : String :=
  if minutes == 1 then "minute" else "minutes"

/-- The text sent for one warning
(`f"{role_mention} {minutes} {unit} until **{name}**{bid_part}"`, where
`bid_part = f" ({bid})" if bid else ""`; `None` and the empty string are
falsy in Python). -/
def warn_message (role_mention : String) (minutes : Nat) (name : String)
    (bid : Option String) : String :=
  let bid_part := match bid with
    | some b => if b.isEmpty then "" else s!" ({b})"
    | none => ""
  let unit := warn_unit minutes
  s!"{role_mention} {minutes} {unit} until **{name}**{bid_part}"

/-- The warning loop of `run_alarm` (lines 282-290), with an ideal gateway
(every send succeeds).  The clock `t` models `now_utc()`: each
`await asyncio.sleep(wait_seconds)` advances it by exactly `wait_seconds`.
The result lists each emitted warning as `(instant of emission, message)`:

    for minutes in leads:
        wait_seconds = (end_utc - timedelta(minutes=minutes) - now_utc()).total_seconds()
        if wait_seconds > 0:
            await asyncio.sleep(wait_seconds)
            await post_channel.send(...)

After the loop no further message is sent (the code comment: no
"0 minutes / starting now" message on purpose). -/
def run_alarm_warnings (role_mention : String) (end_utc : Int) (name : String)
    (bid : Option String) : List Nat → Int → List (Int × String)
  | [], _ => []
  | minutes :: rest, t =>
    let wait_seconds := end_utc - (minutes : Int) * 60 - t
    if 0 < wait_seconds then
      (t + wait_seconds, warn_message role_mention minutes name bid) ::
        run_alarm_warnings role_mention end_utc name bid rest (t + wait_seconds)
    else
      run_alarm_warnings role_mention end_utc name bid rest t

/-- Unfolding: a lead time with positive remaining wait fires at its own
instant `end_utc - minutes*60` and the clock continues from there. -/
lemma run_alarm_warnings_cons_pos (role_mention : String) (end_utc : Int)
    (name : String) (bid : Option String) (minutes : Nat) (rest : List Nat)
    (t : Int) (h : t < end_utc - (minutes : Int) * 60) :
    run_alarm_warnings role_mention end_utc name bid (minutes :: rest) t =
      (end_utc - (minutes : Int) * 60, warn_message role_mention minutes name bid) ::
        run_alarm_warnings role_mention end_utc name bid rest
          (end_utc - (minutes : Int) * 60) := by
  rw [run_alarm_warnings]
  rw [if_pos (by omega)]
  have ht : t + (end_utc - (minutes : Int) * 60 - t) = end_utc - (minutes : Int) * 60 := by
    omega
  rw [ht]

/-- Unfolding: a lead time whose instant is not strictly in the future is
skipped without emission and without advancing the clock. -/
lemma run_alarm_warnings_cons_neg (role_mention : String) (end_utc : Int)
    (name : String) (bid : Option String) (minutes : Nat) (rest : List Nat)
    (t : Int) (h : ¬ t < end_utc - (minutes : Int) * 60) :
    run_alarm_warnings role_mention end_utc name bid (minutes :: rest) t =
      run_alarm_warnings role_mention end_utc name bid rest t := by
  rw [run_alarm_warnings]
  rw [if_neg (by omega)]

/-- The empty lead list emits nothing. -/
lemma run_alarm_warnings_nil (role_mention : String) (end_utc : Int)
    (name : String) (bid : Option String) (t : Int) :
    run_alarm_warnings role_mention end_utc name bid [] t = [] := by
  rw [run_alarm_warnings]

/-- Characterization of the warning schedule: with the configured descending
lead list `[10, 5, 1]`, the Timer started at `t0` emits exactly one warning
per lead time whose instant `end_utc - minutes*60` is strictly after `t0`,
at exactly that instant, in the configured order, and nothing else. -/
lemma run_alarm_warnings_eq_filter (role_mention : String) (end_utc : Int)
    (name : String) (bid : Option String) (t0 : Int) :
    run_alarm_warnings role_mention end_utc name bid warnings t0 =
      (warnings.filter fun (minutes : Nat) =>
          decide (t0 < end_utc - (minutes : Int) * 60)).map
        (fun (minutes : Nat) =>
          (end_utc - (minutes : Int) * 60, warn_message role_mention minutes name bid)) := by
  show run_alarm_warnings role_mention end_utc name bid [10, 5, 1] t0 = _
  by_cases h10 : t0 < end_utc - ((10 : Nat) : Int) * 60
  · have h5 : t0 < end_utc - ((5 : Nat) : Int) * 60 := by push_cast at h10 ⊢; omega
    have h1 : t0 < end_utc - ((1 : Nat) : Int) * 60 := by push_cast at h10 ⊢; omega
    rw [run_alarm_warnings_cons_pos role_mention end_utc name bid 10 [5, 1] t0 h10,
      run_alarm_warnings_cons_pos role_mention end_utc name bid 5 [1] _
        (by push_cast; omega),
      run_alarm_warnings_cons_pos role_mention end_utc name bid 1 [] _
        (by push_cast; omega),
      run_alarm_warnings_nil]
    have g10 : t0 < end_utc - 600 := by push_cast at h10; omega
    have g5 : t0 < end_utc - 300 := by push_cast at h5; omega
    have g1 : t0 < end_utc - 60 := by push_cast at h1; omega
    simp [List.filter, g10, g5, g1]
  · by_cases h5 : t0 < end_utc - ((5 : Nat) : Int) * 60
    · have h1 : t0 < end_utc - ((1 : Nat) : Int) * 60 := by push_cast at h5 ⊢; omega
      rw [run_alarm_warnings_cons_neg role_mention end_utc name bid 10 [5, 1] t0 h10,
        run_alarm_warnings_cons_pos role_mention end_utc name bid 5 [1] t0 h5,
        run_alarm_warnings_cons_pos role_mention end_utc name bid 1 [] _
          (by push_cast; omega),
        run_alarm_warnings_nil]
      have g10 : ¬ t0 < end_utc - 600 := by push_cast at h10; omega
      have g5 : t0 < end_utc - 300 := by push_cast at h5; omega
      have g1 : t0 < end_utc - 60 := by push_cast at h1; omega
      simp [List.filter, g10, g5, g1]
    · by_cases h1 : t0 < end_utc - ((1 : Nat) : Int) * 60
      · rw [run_alarm_warnings_cons_neg role_mention end_utc name bid 10 [5, 1] t0 h10,
          run_alarm_warnings_cons_neg role_mention end_utc name bid 5 [1] t0 h5,
          run_alarm_warnings_cons_pos role_mention end_utc name bid 1 [] t0 h1,
          run_alarm_warnings_nil]
        have g10 : ¬ t0 < end_utc - 600 := by push_cast at h10; omega
        have g5 : ¬ t0 < end_utc - 300 := by push_cast at h5; omega
        have g1 : t0 < end_utc - 60 := by push_cast at h1; omega
        simp [List.filter, g10, g5, g1]
      · rw [run_alarm_warnings_cons_neg role_mention end_utc name bid 10 [5, 1] t0 h10,
          run_alarm_warnings_cons_neg role_mention end_utc name bid 5 [1] t0 h5,
          run_alarm_warnings_cons_neg role_mention end_utc name bid 1 [] t0 h1,
          run_alarm_warnings_nil]
        have g10 : ¬ t0 < end_utc - 600 := by push_cast at h10; omega
        have g5 : ¬ t0 < end_utc - 300 := by push_cast at h5; omega
        have g1 : ¬ t0 < end_utc - 60 := by push_cast at h1; omega
        simp [List.filter, g10, g5, g1]

/-! ## Theorems for claims C4 and C9 -/

/-- C4. For every alarm Timer the schedule is exactly: each configured lead
time (in the configured order `[10, 5, 1]`) whose instant
`end_utc - minutes*60` is strictly after the start instant `t0` suspends
until exactly that instant and then emits one warning carrying the alarm's
name, note (`bid`) and the remaining lead time; a lead time whose remaining
wait is not strictly positive is skipped with no emission; and no message
beyond the configured lead times is ever emitted (in particular no implicit
zero-offset "starting now" message: the emission count never exceeds the
configured lead count). -/
theorem C4_warning_schedule (role_mention : String) (end_utc : Int)
    (name : String) (bid : Option String) (t0 : Int) :
    run_alarm_warnings role_mention end_utc name bid warnings t0 =
      (warnings.filter fun (minutes : Nat) =>
          decide (t0 < end_utc - (minutes : Int) * 60)).map
        (fun (minutes : Nat) =>
          (end_utc - (minutes : Int) * 60, warn_message role_mention minutes name bid)) ∧
    (run_alarm_warnings role_mention end_utc name bid warnings t0).length ≤
      warnings.length := by
  refine ⟨run_alarm_warnings_eq_filter role_mention end_utc name bid t0, ?_⟩
  rw [run_alarm_warnings_eq_filter role_mention end_utc name bid t0]
  rw [List.length_map]
  exact List.length_filter_le _ warnings

/-- C9, counterexample. For an alarm whose deadline is exactly 10 minutes
after creation (`end_utc = 600`, `t0 = 0`) the claim says the 5- and
1-minute lead times are skipped as already past and only the 10-minute one
fires.  The code does the opposite: the 10-minute lead has remaining wait
exactly 0 (not strictly positive) and is skipped, while the 5- and 1-minute
instants lie 5 and 9 minutes in the future and both fire. -/
theorem C9_counterexample :
    run_alarm_warnings "" 600 "Eiffel" none warnings 0 =
      [(300, warn_message "" 5 "Eiffel" none),
        (540, warn_message "" 1 "Eiffel" none)] ∧
    (300, warn_message "" 5 "Eiffel" none) ∈
      run_alarm_warnings "" 600 "Eiffel" none warnings 0 ∧
    ∀ p ∈ run_alarm_warnings "" 600 "Eiffel" none warnings 0,
      p.2 ≠ warn_message "" 10 "Eiffel" none := by
  refine ⟨by decide, by decide, by decide⟩

/-- C9, amended. For an alarm created with its deadline exactly 10 minutes
in the future and lead times `[10, 5, 1]`: the 10-minute lead time is
silently skipped (its remaining wait is 0, not strictly positive), the 5-
and 1-minute lead times fire at exactly 5 and 9 minutes after creation, and
the Timer then terminates with no further message. -/
theorem C9_deadline_in_ten_minutes (role_mention : String) (end_utc : Int)
    (name : String) (bid : Option String) (t0 : Int) (h : end_utc = t0 + 600) :
    run_alarm_warnings role_mention end_utc name bid warnings t0 =
      [(t0 + 300, warn_message role_mention 5 name bid),
        (t0 + 540, warn_message role_mention 1 name bid)] := by
  subst h
  rw [run_alarm_warnings_eq_filter]
  have g10 : ¬ t0 < t0 + 600 - ((10 : Nat) : Int) * 60 := by push_cast; omega
  have g5 : t0 < t0 + 600 - ((5 : Nat) : Int) * 60 := by push_cast; omega
  have g1 : t0 < t0 + 600 - ((1 : Nat) : Int) * 60 := by push_cast; omega
  simp only [warnings, List.filter, decide_eq_false g10, decide_eq_true g5,
    decide_eq_true g1, List.map]
  have a5 : t0 + 600 - ((5 : Nat) : Int) * 60 = t0 + 300 := by push_cast; omega
  have a1 : t0 + 600 - ((1 : Nat) : Int) * 60 = t0 + 540 := by push_cast; omega
  rw [a5, a1]

/-- Witness for `C9_deadline_in_ten_minutes` at `end_utc = 600`, `t0 = 0`. -/
theorem C9_deadline_in_ten_minutes_witness :
    (600 : Int) = 0 + 600 ∧
    run_alarm_warnings "" 600 "Eiffel" none warnings 0 =
      [((0 : Int) + 300, warn_message "" 5 "Eiffel" none),
        ((0 : Int) + 540, warn_message "" 1 "Eiffel" none)] :=
  ⟨by decide, C9_deadline_in_ten_minutes "" 600 "Eiffel" none 0 (by decide)⟩

/-! ## Alarm Timer with a fallible gateway (claim C6)

`run_alarm`'s loop body awaits `post_channel.send(...)` with no handler for
gateway errors: the surrounding `try` catches (and re-raises) only
`asyncio.CancelledError`, so a `discord.HTTPException` from `send`
propagates out of the `for` loop.  The `finally:` block (lines 297-300,
registry pop, store removal, dashboard refresh) runs on normal exit and on
exception alike. -/

/-- The warning loop of `run_alarm` where the send for lead time `minutes`
raises exactly when `fail minutes = true` (destination unreachable).
Returns the warnings actually delivered and whether an uncaught exception
aborted the loop (after which no further lead time is processed). -/
def run_alarm_warnings_f (fail : Nat → Bool) (role_mention : String)
    (end_utc : Int) (name : String) (bid : Option String) :
    List Nat → Int → List (Int × String) × Bool
  | [], _ => ([], false)
  | minutes :: rest, t =>
    let wait_seconds := end_utc - (minutes : Int) * 60 - t
    if 0 < wait_seconds then
      if fail minutes then
        ([], true)
      else
        let r := run_alarm_warnings_f fail role_mention end_utc name bid rest
          (t + wait_seconds)
        ((t + wait_seconds, warn_message role_mention minutes name bid) :: r.1, r.2)
    else
      run_alarm_warnings_f fail role_mention end_utc name bid rest t

/-- Outcome of one complete `run_alarm` task: the delivered warnings, whether
an emit failure escaped the loop, and whether the `finally:` cleanup block
(registry removal, durable-store deletion, dashboard refresh) executed.  By
Python's `try/finally` semantics the cleanup block executes on both exits,
which the model records. -/
structure RunAlarmOutcome where
  emissions : List (Int × String)
  raised : Bool
  cleanup_ran : Bool
deriving DecidableEq, Repr

/-- One complete `run_alarm` task under a fallible gateway. -/
def run_alarm_model (fail : Nat → Bool) (role_mention : String) (end_utc : Int)
    (name : String) (bid : Option String) (t0 : Int) : RunAlarmOutcome :=
  let r := run_alarm_warnings_f fail role_mention end_utc name bid warnings t0
  { emissions := r.1, raised := r.2, cleanup_ran := true }

/-- With no gateway failure, the fallible loop delivers the ideal schedule
and raises nothing. -/
lemma run_alarm_warnings_f_no_fail (role_mention : String) (end_utc : Int)
    (name : String) (bid : Option String) (leads : List Nat) (t : Int)
    (fail : Nat → Bool) (hf : ∀ m ∈ leads, fail m = false) :
    run_alarm_warnings_f fail role_mention end_utc name bid leads t =
      (run_alarm_warnings role_mention end_utc name bid leads t, false) := by
  induction leads generalizing t with
  | nil => rw [run_alarm_warnings_f, run_alarm_warnings]
  | cons m rest ih =>
    rw [run_alarm_warnings_f, run_alarm_warnings]
    have hm : fail m = false := hf m (by simp)
    have hrest : ∀ x ∈ rest, fail x = false := fun x hx => hf x (by simp [hx])
    by_cases hw : 0 < end_utc - (m : Int) * 60 - t
    · rw [if_pos hw, if_pos hw, hm]
      simp only [Bool.false_eq_true, if_false, ih _ hrest]
    · rw [if_neg hw, if_neg hw, ih _ hrest]

/-- If the loop raised, strictly fewer warnings were delivered than the
ideal schedule contains: the failure cut the schedule short. -/
lemma run_alarm_warnings_f_raised_short (fail : Nat → Bool)
    (role_mention : String) (end_utc : Int) (name : String)
    (bid : Option String) (leads : List Nat) (t : Int)
    (h : (run_alarm_warnings_f fail role_mention end_utc name bid leads t).2 = true) :
    (run_alarm_warnings_f fail role_mention end_utc name bid leads t).1.length <
      (run_alarm_warnings role_mention end_utc name bid leads t).length := by
  induction leads generalizing t with
  | nil => rw [run_alarm_warnings_f] at h; simp at h
  | cons m rest ih =>
    rw [run_alarm_warnings_f] at h ⊢
    rw [run_alarm_warnings]
    by_cases hw : 0 < end_utc - (m : Int) * 60 - t
    · rw [if_pos hw] at h ⊢
      rw [if_pos hw]
      by_cases hm : fail m = true
      · rw [if_pos hm]
        simp
      · rw [Bool.not_eq_true] at hm
        rw [hm] at h ⊢
        simp only [Bool.false_eq_true, if_false] at h ⊢
        have := ih (t + (end_utc - (m : Int) * 60 - t)) h
        simpa using this
    · rw [if_neg hw] at h ⊢
      rw [if_neg hw]
      exact ih t h

/-- A send failure for the 10-minute lead time. -/
def fail_ten : Nat → Bool := fun minutes => minutes == 10

/-- C6, counterexample. Start a Timer at `t0 = -100` with deadline
`end_utc = 600`: every configured lead time lies strictly in the future, so
the ideal schedule has three warnings.  When the emit for the 10-minute
lead fails, the code delivers no warning at all — the exception escapes the
`for` loop and the 5- and 1-minute lead times are never processed — so the
Timer does not "continue to the next lead time" as the claim states. -/
theorem C6_counterexample :
    run_alarm_warnings_f fail_ten "" 600 "Eiffel" none warnings (-100) =
      ([], true) ∧
    (run_alarm_warnings "" 600 "Eiffel" none warnings (-100)).length = 3 := by
  refine ⟨by decide, by decide⟩

/-- C6, amended. A warning-emit failure does not prevent the Timer from
reaching its cleanup path — the `finally:` block (registry removal, store
deletion, dashboard refresh) runs whether or not the loop raised — but it
does abort the rest of the schedule: when no configured send fails the
Timer delivers the full ideal schedule, while when a processed send fails
the loop ends with strictly fewer warnings delivered than the ideal
schedule (the remaining lead times are skipped, not continued). -/
theorem C6_emit_failure_aborts_schedule (fail : Nat → Bool)
    (role_mention : String) (end_utc : Int) (name : String)
    (bid : Option String) (t0 : Int) :
    (run_alarm_model fail role_mention end_utc name bid t0).cleanup_ran = true ∧
    ((∀ m ∈ warnings, fail m = false) →
      (run_alarm_model fail role_mention end_utc name bid t0).emissions =
        run_alarm_warnings role_mention end_utc name bid warnings t0 ∧
      (run_alarm_model fail role_mention end_utc name bid t0).raised = false) ∧
    ((run_alarm_model fail role_mention end_utc name bid t0).raised = true →
      (run_alarm_model fail role_mention end_utc name bid t0).emissions.length <
        (run_alarm_warnings role_mention end_utc name bid warnings t0).length) := by
  refine ⟨rfl, ?_, ?_⟩
  · intro hf
    have := run_alarm_warnings_f_no_fail role_mention end_utc name bid warnings t0 fail hf
    constructor
    · show (run_alarm_warnings_f fail role_mention end_utc name bid warnings t0).1 = _
      rw [this]
    · show (run_alarm_warnings_f fail role_mention end_utc name bid warnings t0).2 = false
      rw [this]
  · intro hr
    exact run_alarm_warnings_f_raised_short fail role_mention end_utc name bid warnings t0 hr

/-- Witness for `C6_emit_failure_aborts_schedule` with the always-failing
gateway at `end_utc = 600`, `t0 = -100`: the hypotheses of the second and
third conjuncts are discharged concretely. -/
theorem C6_emit_failure_aborts_schedule_witness :
    (run_alarm_model fail_ten "" 600 "Eiffel" none (-100)).cleanup_ran = true ∧
    (run_alarm_model fail_ten "" 600 "Eiffel" none (-100)).raised = true ∧
    (run_alarm_model fail_ten "" 600 "Eiffel" none (-100)).emissions.length <
      (run_alarm_warnings "" 600 "Eiffel" none warnings (-100)).length :=
  ⟨(C6_emit_failure_aborts_schedule fail_ten "" 600 "Eiffel" none (-100)).1,
    by decide,
    (C6_emit_failure_aborts_schedule fail_ten "" 600 "Eiffel" none (-100)).2.2
      (by decide)⟩

/-! ## Recovery (`restore_persisted_alarms`, `bot.py` lines 581-640)

The claim is per persisted alarm, so the model covers the innermost loop
(lines 606-632): the `times` dictionary of one
`(guild, post_channel, user)`, restored at instant `now` (`now_utc()` at
startup). -/

/-- One persisted alarm record
(`{"name": ..., "bid": ..., "end_utc": iso-string}`).  `end_utc` holds the
result of `datetime.fromisoformat(a["end_utc"])`; `none` models a stored
string that fails to parse (the `except` branch, line 611-613). -/
structure PersistedAlarm where
  name : String
  bid : Option String
  end_utc : Option Int
deriving DecidableEq, Repr

/-- A runtime Registry entry
(`alarms[guild][channel][user][time_str]`, minus the task handle). -/
structure RegistryEntry where
  name : String
  bid : Option String
  end_datetime : Int
deriving DecidableEq, Repr

/-- The recovery loop over one user's persisted `times` map.  Returns, in
source order: the records kept in the Durable Store (every other record is
deleted by `remove_persisted_alarm`), the entries re-inserted into the
Registry, and the warning schedule of the fresh Timer spawned for each
restored alarm (`run_alarm` started at `now`):

    for time_str, a in list(times.items()):
        try: end_utc = fromisoformat(a["end_utc"]) ... except: remove; continue
        if end_utc <= now_utc(): remove; continue          # expired, silent
        task = asyncio.create_task(run_alarm(..., end_utc, ...))
        alarms[guild][channel][user][time_str] = {...}
-/
def restore_user_alarms (role_mention : String) (now : Int) :
    List (String × PersistedAlarm) →
      List (String × PersistedAlarm) × List (String × RegistryEntry) ×
        List (String × List (Int × String))
  | [] => ([], [], [])
  | (time_str, a) :: rest =>
    match a.end_utc with
    | none =>
      restore_user_alarms role_mention now rest
    | some end_utc =>
      if end_utc ≤ now then
        restore_user_alarms role_mention now rest
      else
        let r := restore_user_alarms role_mention now rest
        ((time_str, a) :: r.1,
          (time_str, ⟨a.name, a.bid, end_utc⟩) :: r.2.1,
          (time_str,
            run_alarm_warnings role_mention end_utc a.name a.bid warnings now) ::
            r.2.2)

/-- Whether recovery keeps a persisted record: it parses and its deadline is
strictly after `now`. -/
def restore_keeps (now : Int) (p : String × PersistedAlarm) : Bool :=
  match p.2.end_utc with
  | some end_utc => decide (now < end_utc)
  | none => false

/-- The Registry entry built for a restored record. -/
def restored_registry_entry (p : String × PersistedAlarm) :
    String × RegistryEntry :=
  (p.1, ⟨p.2.name, p.2.bid, p.2.end_utc.getD 0⟩)

/-- The fresh Timer's warning schedule for a restored record. -/
def restored_timer (role_mention : String) (now : Int)
    (p : String × PersistedAlarm) : String × List (Int × String) :=
  (p.1,
    match p.2.end_utc with
    | some end_utc =>
      run_alarm_warnings role_mention end_utc p.2.name p.2.bid warnings now
    | none => [])

/-- Closed form of the recovery loop: the kept store, the Registry and the
spawned Timers are the `restore_keeps`-filtered records, mapped. -/
lemma restore_user_alarms_eq (role_mention : String) (now : Int)
    (times : List (String × PersistedAlarm)) :
    restore_user_alarms role_mention now times =
      (times.filter (restore_keeps now),
        (times.filter (restore_keeps now)).map restored_registry_entry,
        (times.filter (restore_keeps now)).map (restored_timer role_mention now)) := by
  induction times with
  | nil => rfl
  | cons p rest ih =>
    obtain ⟨time_str, a⟩ := p
    rw [restore_user_alarms]
    cases ha : a.end_utc with
    | none =>
      have hk : restore_keeps now (time_str, a) = false := by
        simp [restore_keeps, ha]
      simp only [List.filter, hk, ih]
    | some e =>
      dsimp only
      by_cases he : e ≤ now
      · have hk : restore_keeps now (time_str, a) = false := by
          simp only [restore_keeps, ha]
          exact decide_eq_false (by omega)
        rw [if_pos he]
        simp only [List.filter, hk, ih]
      · have hk : restore_keeps now (time_str, a) = true := by
          simp only [restore_keeps, ha]
          exact decide_eq_true (by omega)
        rw [if_neg he]
        simp only [List.filter, hk, ih, List.map, restored_registry_entry,
          restored_timer, ha, Option.getD]

/-- In a list of pairs with pairwise-distinct keys, two members with the
same key are the same pair. -/
lemma eq_of_mem_of_nodup_keys {α β : Type} (l : List (α × β))
    (h : (l.map Prod.fst).Nodup) {p q : α × β} (hp : p ∈ l) (hq : q ∈ l)
    (hk : p.1 = q.1) : p = q := by
  induction l with
  | nil => cases hp
  | cons r t ih =>
    rw [List.map_cons, List.nodup_cons] at h
    rcases List.mem_cons.mp hp with hp1 | hp1 <;>
      rcases List.mem_cons.mp hq with hq1 | hq1
    · rw [hp1, hq1]
    · exfalso
      apply h.1
      have hmm : q.1 ∈ List.map Prod.fst t := List.mem_map_of_mem Prod.fst hq1
      rw [← hk, hp1] at hmm
      exact hmm
    · exfalso
      apply h.1
      have hmm : p.1 ∈ List.map Prod.fst t := List.mem_map_of_mem Prod.fst hp1
      rw [hk, hq1] at hmm
      exact hmm
    · exact ih h.2 hp1 hq1

/-- C5. At recovery instant `now`:
(a) the Durable Store keeps exactly the parseable records with
`now < deadline`; the Registry and the spawned Timers are exactly those
records mapped to their entries and fresh schedules;
(b) an expired record (`deadline ≤ now`) is discarded from the Store, is
not re-inserted into the Registry under its key, and no Timer — hence no
notification — is ever created for its key (keys of a Python dict are
pairwise distinct, giving the `Nodup` hypothesis);
(c) a record with `now < deadline` is re-inserted into the Registry and its
fresh Timer fires exactly the configured lead times whose instants
`deadline - minutes*60` are still strictly in the future at `now`. -/
theorem C5_recovery (role_mention : String) (now : Int)
    (times : List (String × PersistedAlarm))
    (hkeys : (times.map Prod.fst).Nodup) :
    (restore_user_alarms role_mention now times).1 =
      times.filter (restore_keeps now) ∧
    (restore_user_alarms role_mention now times).2.1 =
      (times.filter (restore_keeps now)).map restored_registry_entry ∧
    (restore_user_alarms role_mention now times).2.2 =
      (times.filter (restore_keeps now)).map (restored_timer role_mention now) ∧
    (∀ time_str a end_utc, (time_str, a) ∈ times → a.end_utc = some end_utc →
      end_utc ≤ now →
        (time_str, a) ∉ (restore_user_alarms role_mention now times).1 ∧
        (∀ entry, (time_str, entry) ∉ (restore_user_alarms role_mention now times).2.1) ∧
        (∀ schedule, (time_str, schedule) ∉ (restore_user_alarms role_mention now times).2.2)) ∧
    (∀ time_str a end_utc, (time_str, a) ∈ times → a.end_utc = some end_utc →
      now < end_utc →
        (time_str, (⟨a.name, a.bid, end_utc⟩ : RegistryEntry)) ∈
          (restore_user_alarms role_mention now times).2.1 ∧
        (time_str,
            (warnings.filter fun (minutes : Nat) =>
                decide (now < end_utc - (minutes : Int) * 60)).map
              (fun (minutes : Nat) =>
                (end_utc - (minutes : Int) * 60,
                  warn_message role_mention minutes a.name a.bid))) ∈
          (restore_user_alarms role_mention now times).2.2) := by
  rw [restore_user_alarms_eq]
  refine ⟨rfl, rfl, rfl, ?_, ?_⟩
  · intro time_str a end_utc hmem hparse hexp
    have hk : restore_keeps now (time_str, a) = false := by
      simp only [restore_keeps, hparse]
      exact decide_eq_false (by omega)
    refine ⟨?_, ?_, ?_⟩
    · intro hin
      exact absurd ((List.mem_filter.mp hin).2) (by rw [hk]; decide)
    · intro entry hin
      obtain ⟨p, hpf, hpe⟩ := List.mem_map.mp hin
      have hp : p ∈ times := (List.mem_filter.mp hpf).1
      have hpk : restore_keeps now p = true := (List.mem_filter.mp hpf).2
      have hfst : p.1 = time_str := by
        have := congrArg Prod.fst hpe
        simpa [restored_registry_entry] using this
      have := eq_of_mem_of_nodup_keys times hkeys hp hmem
        (by rw [hfst])
      rw [this] at hpk
      rw [hk] at hpk
      cases hpk
    · intro schedule hin
      obtain ⟨p, hpf, hpe⟩ := List.mem_map.mp hin
      have hp : p ∈ times := (List.mem_filter.mp hpf).1
      have hpk : restore_keeps now p = true := (List.mem_filter.mp hpf).2
      have hfst : p.1 = time_str := by
        have := congrArg Prod.fst hpe
        simpa [restored_timer] using this
      have := eq_of_mem_of_nodup_keys times hkeys hp hmem
        (by rw [hfst])
      rw [this] at hpk
      rw [hk] at hpk
      cases hpk
  · intro time_str a end_utc hmem hparse hfut
    have hk : restore_keeps now (time_str, a) = true := by
      simp only [restore_keeps, hparse]
      exact decide_eq_true (by omega)
    have hf : (time_str, a) ∈ times.filter (restore_keeps now) :=
      List.mem_filter.mpr ⟨hmem, hk⟩
    constructor
    · have := List.mem_map_of_mem restored_registry_entry hf
      simpa [restored_registry_entry, hparse] using this
    · have := List.mem_map_of_mem (restored_timer role_mention now) hf
      rw [restored_timer] at this
      simp only [hparse] at this
      rw [run_alarm_warnings_eq_filter] at this
      exact this

/-- Witness for `C5_recovery`: one expired, one unparseable and one live
record, with distinct keys. -/
theorem C5_recovery_witness :
    (([("08:00", ⟨"Old", none, some 40⟩), ("09:00", ⟨"Bad", none, none⟩),
        ("10:00", (⟨"Live", some "3M", some 700⟩ : PersistedAlarm))].map
        Prod.fst).Nodup) ∧
    (restore_user_alarms "" 100
        [("08:00", ⟨"Old", none, some 40⟩), ("09:00", ⟨"Bad", none, none⟩),
          ("10:00", ⟨"Live", some "3M", some 700⟩)]).1 =
      [("10:00", ⟨"Live", some "3M", some 700⟩)] :=
  ⟨by decide,
    (C5_recovery "" 100
      [("08:00", ⟨"Old", none, some 40⟩), ("09:00", ⟨"Bad", none, none⟩),
        ("10:00", ⟨"Live", some "3M", some 700⟩)] (by decide)).1.trans
      (by decide)⟩

/-! ## Dashboard Reconciler (`update_dashboard`, `bot.py` lines 169-254, and
`live_dashboard_task`, lines 258-264)

The snapshot read under the per-destination lock is
`alarms[guild_id][post_channel.id]`: a dictionary `user_id → (time_str →
alarm data)`.  The runtime alarm data seen by the dashboard has the same
shape as a Registry entry (`name`, `bid`, `end_datetime`). -/

/-- The alarm snapshot for one destination
(`alarms[guild_id][post_channel.id]`). -/
abbrev PostAlarms : Type := List (Nat × List (String × RegistryEntry))

/-- Lines 177-181: users whose alarm dicts are empty are dropped from the
snapshot before the emptiness test. -/
def clean_empty_users (post_alarms : PostAlarms) : PostAlarms :=
  post_alarms.filter fun p => !p.2.isEmpty

/-- Lines 205-208: flatten the snapshot into the `items` list, iterating
users and then their times in order. -/
def collect_items (post_alarms : PostAlarms) : List RegistryEntry :=
  (post_alarms.map fun p => p.2.map Prod.snd).flatten

/-- The dashboard sort order: `items.sort(key=lambda a: a["end_datetime"])`
compares entries by deadline. -/
def deadline_le (a b : RegistryEntry) : Prop :=
  a.end_datetime ≤ b.end_datetime

instance deadline_le_decidable : DecidableRel deadline_le := fun a b =>
  inferInstanceAs (Decidable (a.end_datetime ≤ b.end_datetime))

instance deadline_le_total : IsTotal RegistryEntry deadline_le :=
  ⟨fun a b => Int.le_total a.end_datetime b.end_datetime⟩

instance deadline_le_trans : IsTrans RegistryEntry deadline_le :=
  ⟨fun _ _ _ hab hbc => Int.le_trans hab hbc⟩

/-- Line 210, `items.sort(key=lambda a: a["end_datetime"])`: Python's
`list.sort` is a stable comparison sort by the key; modelled by a stable
sort under `deadline_le`. -/
def sort_items (items : List RegistryEntry) : List RegistryEntry :=
  items.insertionSort deadline_le

/-- The entries of the rendered dashboard view, in render order
(lines 177-235). -/
def rendered_entries (post_alarms : PostAlarms) : List RegistryEntry :=
  sort_items (collect_items (clean_empty_users post_alarms))

/-- C7. For every possible snapshot content, the rendered dashboard entries
appear in non-decreasing order of `end_datetime`, and they are exactly the
alarms of the (cleaned) snapshot, none dropped or invented. -/
theorem C7_dashboard_sorted (post_alarms : PostAlarms) :
    List.Sorted deadline_le (rendered_entries post_alarms) ∧
    (rendered_entries post_alarms).Perm
      (collect_items (clean_empty_users post_alarms)) := by
  exact ⟨List.sorted_insertionSort deadline_le _,
    List.perm_insertionSort deadline_le _⟩

/-! ### The reconciliation pass and its failure modes (claim C3) -/

/-- Outcome of `message.edit(embed=...)` at line 248: success, the
`discord.NotFound` the code catches (fallback to a fresh send), or any
other gateway exception, which the code does not catch. -/
inductive EditOutcome
  | ok
  | notFound
  | httpError
deriving DecidableEq, Repr

/-- The messaging gateway's behaviour during one pass.  `send = none`
models `post_channel.send(...)` raising (destination unreachable) — the
code wraps no handler around either send call. -/
structure Gateway where
  send : Option Nat
  edit : EditOutcome
deriving DecidableEq, Repr

/-- Per-destination reconciler state: the alarm snapshot, the published
view's handle (`dashboard_messages[guild][channel]`) and whether the
per-destination live task (`dashboard_tasks[guild][channel]`) is running. -/
structure DashState where
  post_alarms : PostAlarms
  dashboard_message : Option Nat
  dashboard_task : Bool
deriving Repr

/-- One reconciliation pass, `update_dashboard` (lines 169-254), under the
per-destination lock.  `Except.error ()` is an exception escaping the
function (the only uncaught one is a gateway failure of a `send`/`edit`;
the message delete in the empty branch sits in a bare `except: pass`).  In
the empty branch the code deletes the view, cancels the live task and drops
the lock; otherwise it renders and sends a fresh view (no handle yet) or
edits in place, falling back to a fresh send when the edit target
disappeared (`except discord.NotFound`). -/
def update_dashboard (gw : Gateway) (s : DashState) : Except Unit DashState :=
  let pa := clean_empty_users s.post_alarms
  if pa.isEmpty then
    Except.ok
      { post_alarms := pa, dashboard_message := none,
        dashboard_task := false }
  else
    match s.dashboard_message with
    | none =>
      match gw.send with
      | some handle =>
        Except.ok
          { post_alarms := pa, dashboard_message := some handle,
            dashboard_task := s.dashboard_task }
      | none => Except.error ()
    | some handle =>
      match gw.edit with
      | EditOutcome.ok =>
        Except.ok
          { post_alarms := pa, dashboard_message := some handle,
            dashboard_task := s.dashboard_task }
      | EditOutcome.notFound =>
        match gw.send with
        | some handle2 =>
          Except.ok
            { post_alarms := pa, dashboard_message := some handle2,
              dashboard_task := s.dashboard_task }
        | none => Except.error ()
      | EditOutcome.httpError => Except.error ()

/-- Result of one iteration of `live_dashboard_task`'s loop (lines 258-264):
the loop continues, ends regularly (the pass cancelled the task; the
`except asyncio.CancelledError` swallows the cancellation at the next
sleep), or dies because a non-`CancelledError` exception escaped
`update_dashboard` — the loop's `try` does not catch it. -/
inductive TickResult
  | continues (s : DashState)
  | ended (s : DashState)
  | crashed
deriving Repr

/-- One tick of the per-destination Reconciler loop. -/
def reconciler_tick (gw : Gateway) (s : DashState) : TickResult :=
  match update_dashboard gw s with
  | Except.error _ => TickResult.crashed
  | Except.ok s2 =>
    if s2.dashboard_task then TickResult.continues s2 else TickResult.ended s2

/-- The flattened cleaned snapshot is empty exactly when the cleaned
snapshot has no users. -/
lemma collect_items_clean_eq_nil (post_alarms : PostAlarms) :
    collect_items (clean_empty_users post_alarms) = [] ↔
      clean_empty_users post_alarms = [] := by
  cases h : clean_empty_users post_alarms with
  | nil => simp [collect_items, h]
  | cons p t =>
    have hp : p ∈ clean_empty_users post_alarms := by
      rw [h]; exact List.mem_cons_self p t
    have hne : ¬ p.2.isEmpty := by
      have := (List.mem_filter.mp hp).2
      simpa using this
    constructor
    · intro hc
      exfalso
      rw [collect_items] at hc
      simp only [List.map_cons, List.flatten_cons, List.append_eq_nil,
        List.map_eq_nil_iff] at hc
      rw [hc.1] at hne
      exact hne rfl
    · intro hc
      cases hc

/-- A crashing gateway: the destination is unreachable for `send`. -/
def gateway_down : Gateway :=
  { send := none, edit := EditOutcome.httpError }

/-- A reconciler state with one alarm in its snapshot and no published
view. -/
def one_alarm_state : DashState :=
  { post_alarms := [(1, [("20:00", ⟨"Eiffel", none, 600⟩)])],
    dashboard_message := none,
    dashboard_task := true }

/-- C3, counterexample. With one alarm in the snapshot and the destination
unreachable, the publish attempt raises, the exception escapes
`update_dashboard`, and the Reconciler loop dies — its lifecycle ends while
the alarm set is non-empty, by a mechanism other than the empty-set
retract-and-terminate path.  At that same reachable state the alarm set is
non-empty yet no dashboard view is published, so the claimed
view-iff-non-empty invariant does not hold at every reachable state
either. -/
theorem C3_counterexample :
    reconciler_tick gateway_down one_alarm_state = TickResult.crashed ∧
    collect_items (clean_empty_users one_alarm_state.post_alarms) ≠ [] ∧
    one_alarm_state.dashboard_message = none := by
  refine ⟨rfl, by decide, rfl⟩

/-- C3, amended. For every reconciliation pass that completes without a
gateway exception: the destination has a published view after the pass iff
its (cleaned) alarm snapshot is non-empty; a pass observing an empty
snapshot retracts the view (if any) and terminates the Reconciler; and a
pass observing a non-empty snapshot never stops the live task.  (The
empty-snapshot pass is not, however, the sole way the Reconciler's
lifecycle can end: an uncaught gateway failure also ends it, as
`C3_counterexample` shows, and the admin `!worker delete` command cancels
it directly.) -/
theorem C3_reconciliation_pass (gw : Gateway) (s s2 : DashState)
    (hok : update_dashboard gw s = Except.ok s2) :
    (s2.dashboard_message.isSome ↔
      collect_items s2.post_alarms ≠ []) ∧
    ((clean_empty_users s.post_alarms).isEmpty = true →
      s2.dashboard_message = none ∧ s2.dashboard_task = false) ∧
    ((clean_empty_users s.post_alarms).isEmpty = false →
      s2.dashboard_task = s.dashboard_task) := by
  rw [update_dashboard] at hok
  by_cases hpa : (clean_empty_users s.post_alarms).isEmpty
  · rw [if_pos hpa] at hok
    simp only [Except.ok.injEq] at hok
    subst hok
    have hnil : clean_empty_users s.post_alarms = [] :=
      List.isEmpty_iff.mp hpa
    refine ⟨?_, fun _ => ⟨rfl, rfl⟩, fun hc => absurd hpa (by rw [hc]; decide)⟩
    simp [hnil, collect_items]
  · rw [if_neg hpa] at hok
    have hne : collect_items (clean_empty_users s.post_alarms) ≠ [] := by
      intro hc
      rw [(collect_items_clean_eq_nil s.post_alarms).mp hc] at hpa
      exact hpa rfl
    have hfalse : (clean_empty_users s.post_alarms).isEmpty = false := by
      cases hb : (clean_empty_users s.post_alarms).isEmpty
      · rfl
      · exact absurd hb (by intro hb2; exact hpa hb2)
    cases hm : s.dashboard_message with
    | none =>
      rw [hm] at hok
      cases hs : gw.send with
      | none => rw [hs] at hok; cases hok
      | some handle =>
        rw [hs] at hok
        simp only [Except.ok.injEq] at hok
        subst hok
        exact ⟨by simpa using hne, fun hc => absurd hc (by rw [hfalse]; decide),
          fun _ => rfl⟩
    | some handle =>
      rw [hm] at hok
      cases hedit : gw.edit with
      | ok =>
        rw [hedit] at hok
        simp only [Except.ok.injEq] at hok
        subst hok
        exact ⟨by simpa using hne, fun hc => absurd hc (by rw [hfalse]; decide),
          fun _ => rfl⟩
      | notFound =>
        rw [hedit] at hok
        cases hs : gw.send with
        | none => rw [hs] at hok; cases hok
        | some handle2 =>
          rw [hs] at hok
          simp only [Except.ok.injEq] at hok
          subst hok
          exact ⟨by simpa using hne, fun hc => absurd hc (by rw [hfalse]; decide),
            fun _ => rfl⟩
      | httpError => rw [hedit] at hok; cases hok

/-- A healthy gateway: `send` succeeds (handle 7) and `edit` succeeds. -/
def gateway_up : Gateway :=
  { send := some 7, edit := EditOutcome.ok }

/-- The state a healthy pass produces from `one_alarm_state`. -/
def one_alarm_passed : DashState :=
  { post_alarms := clean_empty_users one_alarm_state.post_alarms,
    dashboard_message := some 7, dashboard_task := true }

/-- Witness for `C3_reconciliation_pass`: a healthy gateway publishing a
fresh view over `one_alarm_state`. -/
theorem C3_reconciliation_pass_witness :
    update_dashboard gateway_up one_alarm_state = Except.ok one_alarm_passed ∧
    ((one_alarm_passed.dashboard_message.isSome ↔
        collect_items one_alarm_passed.post_alarms ≠ []) ∧
      ((clean_empty_users one_alarm_state.post_alarms).isEmpty = true →
        one_alarm_passed.dashboard_message = none ∧
          one_alarm_passed.dashboard_task = false) ∧
      ((clean_empty_users one_alarm_state.post_alarms).isEmpty = false →
        one_alarm_passed.dashboard_task = one_alarm_state.dashboard_task)) :=
  ⟨rfl, C3_reconciliation_pass gateway_up one_alarm_state one_alarm_passed rfl⟩

/-! ## Replace-by-key (`!worker +`, `bot.py` lines 527-545, with the
cancelled Timer's cleanup, lines 294-300)

The claim concerns one key `(guild, post_channel, user, time_str)`, so the
model works on the innermost `time_str`-indexed dictionaries of the two
stores: the runtime Registry level `alarms[g][c][u]` and the Durable Store
level `data[g]["alarms"][c][u]`. -/

/-- Dictionary assignment `d[k] = v`. -/
def dict_set {α : Type} (f : String → Option α) (k : String) (v : α) :
    String → Option α :=
  fun x => if x = k then some v else f x

/-- Dictionary removal `d.pop(k, None)` (a no-op on absence). -/
def dict_pop {α : Type} (f : String → Option α) (k : String) :
    String → Option α :=
  fun x => if x = k then none else f x

/-- The two per-key stores for one `(guild, post_channel, user)` scope. -/
structure KeySlice where
  reg : String → Option RegistryEntry
  store : String → Option PersistedAlarm

/-- The add-alarm tail of the `!worker +` command (lines 527-545), restricted
to the affected key scope:

    existing = alarms[guild_id][post_channel.id][ctx.author.id].get(time_value)
    if existing:
        existing["task"].cancel()
        remove_persisted_alarm(...)
    task = asyncio.create_task(run_alarm(...))
    alarms[guild_id][post_channel.id][ctx.author.id][time_value] = {...}
    persist_alarm(...)

The returned flag records whether a prior Timer was cancelled.
`task.cancel()` only schedules a `CancelledError` in the old task; nothing
here awaits it, and this block contains no `await`, so the old task cannot
run between these steps. -/
def worker_add (s : KeySlice) (time_value : String) (entry : RegistryEntry) :
    KeySlice × Bool :=
  match s.reg time_value with
  | some _ =>
    let s1 : KeySlice := { s with store := dict_pop s.store time_value }
    let s2 : KeySlice := { s1 with reg := dict_set s1.reg time_value entry }
    let s3 : KeySlice :=
      { s2 with
        store := dict_set s2.store time_value
          ⟨entry.name, entry.bid, some entry.end_datetime⟩ }
    (s3, true)
  | none =>
    let s2 : KeySlice := { s with reg := dict_set s.reg time_value entry }
    let s3 : KeySlice :=
      { s2 with
        store := dict_set s2.store time_value
          ⟨entry.name, entry.bid, some entry.end_datetime⟩ }
    (s3, false)

/-- The `finally:` block of `run_alarm` (lines 297-300), as it runs for a
cancelled Timer of key `time_value`: it pops whatever entry currently sits
under that key in the Registry and deletes the persisted record under that
key (`remove_persisted_alarm`). -/
def run_alarm_cleanup (s : KeySlice) (time_value : String) : KeySlice :=
  { reg := dict_pop s.reg time_value, store := dict_pop s.store time_value }

/-- The settled effect of an add that replaces an existing alarm.  The
command body runs synchronously through insert and persist; the cancelled
old Timer receives its `CancelledError` when the event loop next runs (at
the command's `await ctx.send(...)`), at which point its `finally:` cleanup
executes — on the state that already contains the new entry. -/
def worker_add_settled (s : KeySlice) (time_value : String)
    (entry : RegistryEntry) : KeySlice :=
  let r := worker_add s time_value entry
  if r.2 then run_alarm_cleanup r.1 time_value else r.1

/-- A key scope holding one live alarm under `"20:00"`, in both stores. -/
def c1_initial : KeySlice :=
  { reg := fun x => if x = "20:00" then some ⟨"Old", none, 1000⟩ else none,
    store := fun x =>
      if x = "20:00" then some ⟨"Old", none, some 1000⟩ else none }

/-- The replacement alarm the user creates for the same key. -/
def c1_new_entry : RegistryEntry := ⟨"New", some "5M", 2000⟩

/-- C1. Evaluating the code at the failing input: a live alarm exists under
key `"20:00"` and the user creates a replacement for the same key.  The
command does cancel the old Timer first and, at the end of its synchronous
section, Registry and Store each hold exactly the new entry — but once the
cancelled Timer's deferred `finally:` cleanup runs (at the command's next
`await`), it pops that key from both stores, leaving ZERO entries for the
key while the new Timer still runs, instead of the claimed exactly-one
(new) entry. -/
theorem C1_replaced_key_vanishes :
    (worker_add c1_initial "20:00" c1_new_entry).2 = true ∧
    (worker_add c1_initial "20:00" c1_new_entry).1.reg "20:00" =
      some c1_new_entry ∧
    (worker_add c1_initial "20:00" c1_new_entry).1.store "20:00" =
      some ⟨"New", some "5M", some 2000⟩ ∧
    (worker_add_settled c1_initial "20:00" c1_new_entry).reg "20:00" = none ∧
    (worker_add_settled c1_initial "20:00" c1_new_entry).store "20:00" =
      none := by
  refine ⟨rfl, by decide, by decide, by decide, by decide⟩

/-! ## Durable Store writes (`save_data`, `bot.py` lines 47-50) -/

/-- One `save_data()` call:

    with open(DATA_FILE, "w", encoding="utf-8") as f:
        json.dump(data, f, indent=4)

`open(..., "w")` truncates the single data file in place and `json.dump`
streams the serialized state into it; there is no
write-to-temporary-then-rename step.  `old_file` is the file's previous
content (`none`: no file yet); `content` the serialization of `data`;
`fail_after = some n` models an I/O or serialization error raised after `n`
characters were written (`none`: the write completes).  Returns the file
content afterwards and whether an exception was raised; `save_data`
installs no handler, so a raised error propagates to the triggering
operation. -/
def save_data (_old_file : Option String) (content : String)
    (fail_after : Option Nat) : Option String × Bool :=
  match fail_after with
  | none => (some content, false)
  | some n => (some (content.take n), true)

/-- C8, counterexample. A failure three characters into writing the new
state leaves the data file holding `"new"` — neither the previous durable
state `"olddata"` nor the complete new state `"newdata"`.  The write is an
in-place truncate-and-overwrite, so a mid-write failure corrupts the
previously-written durable state, contradicting the claimed
write-new-then-replace discipline. -/
theorem C8_counterexample :
    save_data (some "olddata") "newdata" (some 3) = (some "new", true) ∧
    (save_data (some "olddata") "newdata" (some 3)).1 ≠ some "olddata" ∧
    (save_data (some "olddata") "newdata" (some 3)).1 ≠ some "newdata" := by
  refine ⟨by decide, by decide, by decide⟩

/-- C8, amended. A persistence failure is surfaced to the triggering
operation (an exception is raised exactly when the write fails; `save_data`
never swallows it), and a completed write stores exactly the new state —
but the write is an in-place truncation of the one data file: after a
failure `n` characters in, the file holds the first `n` characters of the
new serialization, whatever the previous durable state was, so a mid-write
failure can corrupt it (there is no write-new-then-replace discipline). -/
theorem C8_save_data_semantics (old_file : Option String) (content : String)
    (fail_after : Option Nat) :
    ((save_data old_file content fail_after).2 = true ↔ fail_after ≠ none) ∧
    (fail_after = none →
      save_data old_file content fail_after = (some content, false)) ∧
    (∀ n, fail_after = some n →
      (save_data old_file content fail_after).1 = some (content.take n)) := by
  cases fail_after with
  | none => exact ⟨by simp [save_data], fun _ => rfl, fun n h => by cases h⟩
  | some n =>
    constructor
    · simp [save_data]
    constructor
    · intro h
      cases h
    · intro m h
      cases h
      rfl

/-- Witness for `C8_save_data_semantics` at the concrete failing write of
`C8_counterexample`. -/
theorem C8_save_data_semantics_witness :
    ((save_data (some "olddata") "newdata" (some 3)).2 = true ↔
      (some 3 : Option Nat) ≠ none) ∧
    (save_data (some "olddata") "newdata" (some 3)).1 =
      some (String.take "newdata" 3) :=
  ⟨(C8_save_data_semantics (some "olddata") "newdata" (some 3)).1,
    (C8_save_data_semantics (some "olddata") "newdata" (some 3)).2.2 3 rfl⟩

end WorkerBot
